import Mathlib

/-!
# Verification of the Argilla dataset-manager orchestration layer

Shallow embedding of `src/utils/dataset_manager.py` (class `DatasetManager`)
and `src/utils/argilla_client.py`. The third-party Argilla SDK is modelled as
an oracle environment `Env`: each remote call is a function of the environment
returning `Except PyErr _`, and every embedded operation additionally returns
the list of SDK calls it performed (`Event` trace), so that frame properties
("the source dataset is never mutated", "exactly one workspace is created")
are statable. Record payloads are an opaque type parameter `α`; Python's
`int` batch size is modelled as `Nat` (Python list slicing treats a
non-positive extent as an empty slice, which coincides with `Nat` behaviour
for size `0`).
-/

set_option autoImplicit false

namespace ArgillaManager

/-- Python exception universe relevant to this layer: the library's own
`DatasetError`, the SDK's `NotFoundApiError` (caught specially in
`argilla_client.get_or_create_workspace`), and any other exception, each
carrying its `str(e)` message. -/
inductive PyErr : Type where
  | datasetError (msg : String)
  | notFoundApiError (msg : String)
  | otherError (msg : String)
deriving DecidableEq, Repr

/-- The `except Exception as e: if not isinstance(e, DatasetError): e =
DatasetError(ctx + str(e)); raise e` pattern shared by every public method:
a `DatasetError` is re-raised unchanged, anything else is wrapped with the
contextual message. -/
def wrapUnless (ctx : String) : PyErr → PyErr
  | .datasetError m => .datasetError m
  | .notFoundApiError m => .datasetError (ctx ++ m)
  | .otherError m => .datasetError (ctx ++ m)

/-- An `rg.Workspace`: a named container. -/
structure Workspace : Type where
  name : String
deriving DecidableEq, Repr

/-- Values stored in a Python settings dict: strings (guidelines) or string
lists (labels). -/
inductive Val : Type where
  | str (s : String)
  | strList (l : List String)
deriving DecidableEq, Repr

/-- A Python dict of settings, as an insertion-ordered association list. -/
abbrev SettingsDict : Type := List (String × Val)

/-- First value bound to a key in an association list (Python attribute /
dict lookup). -/
def findVal (attrs : List (String × Val)) (k : String) : Option Val :=
  match attrs with
  | [] => none
  | (k', v) :: rest => if k' = k then some v else findVal rest k

/-- Python `d.get(key, default)`. -/
def dictGet (d : SettingsDict) (k : String) (default : Val) : Val :=
  match findVal d k with
  | some v => v
  | none => default

/-- An `rg.Settings` object: guidelines, a list of field names, and a list of
questions (name paired with its labels value). -/
structure ArgSettings : Type where
  guidelines : Val
  fields : List String
  questions : List (String × Val)
deriving DecidableEq, Repr

/-- `DatasetManager.create_dataset` lines 97-108: the `rg.Settings` object it
builds from the `settings` dict. The schema is fixed: a single
`TextField(name="text")` and a single `LabelQuestion(name="label", ...)`;
only the keys `guidelines` and `labels` of the dict are consulted. -/
def buildSettings (settings : SettingsDict) : ArgSettings :=
  { guidelines := dictGet settings "guidelines" (.str "")
  , fields := ["text"]
  , questions := [("label", dictGet settings "labels" (.strList ["positive", "negative"]))] }

/-- An `rg.Dataset` object with record payload type `α`: its name, the name
of its workspace, its live settings, its plain Python attributes (the ones
`hasattr`/`setattr` see in `update_dataset_settings`), and its ordered
records. -/
structure DS (α : Type) : Type where
  name : String
  workspace : String
  settings : ArgSettings
  attrs : List (String × Val)
  records : List α
deriving DecidableEq, Repr

/-- Trace of SDK calls an operation performs. Mutating calls are
`wsCreate`, `dsCreate`, `addRecords` and `dsDelete`; the rest are reads. -/
inductive Event : Type where
  | wsLookup (name : String)
  | wsCreate (name : String)
  | dsLookup (ws name : String)
  | dsCreate (ws name : String)
  | addRecords (ws name : String) (offset len : Nat)
  | dsDelete (ws name : String)
deriving DecidableEq, Repr

/-- The dataset a mutating event targets, if any. -/
def dsMutTarget : Event → Option String
  | .dsCreate _ n => some n
  | .addRecords _ n _ _ => some n
  | .dsDelete _ n => some n
  | _ => none

/-- Oracle model of the Argilla SDK client: the outcome of each remote call.
`wsLookup` is `client.workspaces(name)` (may return `None`), `wsCreate` is
`rg.Workspace(...).create()`, `dsLookup` is `client.datasets(name,
workspace)` (may return `None`), `dsCreate` is `rg.Dataset(...).create()`,
`dsDelete` is `dataset.delete()`, `addRes` is the outcome of
`target.add_records(batch)` for the batch fetched at a given offset, and
`now` is the `datetime.now().strftime("%Y%m%d_%H%M%S")` timestamp. -/
structure Env (α : Type) : Type where
  wsLookup : String → Except PyErr (Option Workspace)
  wsCreate : String → Except PyErr Workspace
  dsLookup : String → String → Except PyErr (Option (DS α))
  dsCreate : String → String → ArgSettings → Except PyErr Unit
  dsDelete : String → String → Except PyErr Unit
  addRes : Nat → Except String Unit
  now : String

/-- `DatasetManager._get_workspace` (dataset_manager.py lines 35-67): look the
workspace up; if present return it; if absent and `create`, create it; if
absent and not `create`, raise `DatasetError` ("not found"); any other
exception is wrapped unless already a `DatasetError`. -/
def get_workspace {α : Type} (env : Env α) (workspace : String) (create : Bool) :
    List Event × Except PyErr Workspace :=
  match env.wsLookup workspace with
  | .ok (some w) => ([.wsLookup workspace], .ok w)
  | .ok none =>
    if create then
      match env.wsCreate workspace with
      | .ok w => ([.wsLookup workspace, .wsCreate workspace], .ok w)
      | .error e =>
        ([.wsLookup workspace, .wsCreate workspace],
         .error (wrapUnless ("Error accessing workspace \x27" ++ workspace ++ "\x27: ") e))
    else
      ([.wsLookup workspace],
       .error (.datasetError ("Workspace \x27" ++ workspace ++ "\x27 not found")))
  | .error e =>
    ([.wsLookup workspace],
     .error (wrapUnless ("Error accessing workspace \x27" ++ workspace ++ "\x27: ") e))

/-- `argilla_client.get_or_create_workspace` (argilla_client.py lines 18-34):
`try: workspace = client.workspaces(name=...)` — only `NotFoundApiError` is
caught, in which case a workspace is created and the freshly constructed
local object is returned; any other exception propagates raw. A `None`
lookup result is returned as-is. -/
def get_or_create_workspace {α : Type} (env : Env α) (workspace_name : String) :
    List Event × Except PyErr (Option Workspace) :=
  match env.wsLookup workspace_name with
  | .ok w => ([.wsLookup workspace_name], .ok w)
  | .error (.notFoundApiError _) =>
    match env.wsCreate workspace_name with
    | .ok _ =>
      ([.wsLookup workspace_name, .wsCreate workspace_name], .ok (some ⟨workspace_name⟩))
    | .error e => ([.wsLookup workspace_name, .wsCreate workspace_name], .error e)
  | .error e => ([.wsLookup workspace_name], .error e)

/-- The list comprehension `[transform_record(record) for record in records]`:
apply `f` to each element in order, stopping at the first raised exception. -/
def mapExcept {α : Type} (f : α → Except String α) : List α → Except String (List α)
  | [] => .ok []
  | a :: rest =>
    match f a with
    | .error m => .error m
    | .ok b =>
      match mapExcept f rest with
      | .error m => .error m
      | .ok bs => .ok (b :: bs)

/-- `if transform_record: records = [transform_record(r) for r in records]`
(dataset_manager.py lines 184-186): no transform means the batch passes
through unchanged. -/
def transformBatch {α : Type} (transform : Option (α → Except String α)) (batch : List α) :
    Except String (List α) :=
  match transform with
  | none => .ok batch
  | some f => mapExcept f batch

theorem mapExcept_ok_length {α : Type} (f : α → Except String α) :
    ∀ (l l2 : List α), mapExcept f l = .ok l2 → l2.length = l.length := by
  intro l
  induction l with
  | nil => intro l2 h; simp only [mapExcept] at h; cases h; rfl
  | cons a rest ih =>
    intro l2 h
    simp only [mapExcept] at h
    cases hf : f a with
    | error m => rw [hf] at h; exact absurd h (by simp)
    | ok b =>
      rw [hf] at h
      cases hr : mapExcept f rest with
      | error m => rw [hr] at h; exact absurd h (by simp)
      | ok bs =>
        rw [hr] at h
        cases h
        simp [ih bs hr]

theorem transformBatch_ok_length {α : Type} (t : Option (α → Except String α))
    (l l2 : List α) (h : transformBatch t l = .ok l2) : l2.length = l.length := by
  cases t with
  | none => simp only [transformBatch] at h; cases h; rfl
  | some f => exact mapExcept_ok_length f l l2 h

/-- Result of the batch loop of `migrate_dataset`: the records appended to
the target so far, one `(offset, batch length)` pair per slice fetched, the
SDK events performed, and the `DatasetError` that aborted the loop, if any. -/
structure LoopOut (α : Type) : Type where
  appended : List α
  fetches : List (Nat × Nat)
  events : List Event
  err : Option PyErr
deriving DecidableEq, Repr

/-- The `while offset < total_records` loop of `DatasetManager.migrate_dataset`
(dataset_manager.py lines 175-201). Each iteration fetches the slice
`source[offset:offset + batch_size]` (modelled on the source's record list),
breaks on an empty slice, optionally transforms the batch (aborting with a
`DatasetError` naming the offset if the transform raises), appends the batch
to the target (aborting with a `DatasetError` naming the offset on failure),
and advances `offset` by the length of the (transformed) batch. `tws`/`tds`
name the target for the event trace. -/
def migrateLoop {α : Type} (env : Env α) (tws tds : String)
    (transform : Option (α → Except String α)) (recs : List α) (batch_size : Nat)
    (total : Nat) (offset : Nat) (acc : List α) : LoopOut α :=
  if h : offset < total then
    let batch := (recs.drop offset).take batch_size
    if hb : batch.isEmpty then
      { appended := acc, fetches := [(offset, 0)], events := [], err := none }
    else
      match ht : transformBatch transform batch with
      | .error m =>
        { appended := acc, fetches := [(offset, batch.length)], events := []
        , err := some (.datasetError
            ("Record transformation failed at offset " ++ toString offset ++ ": " ++ m)) }
      | .ok batch2 =>
        match env.addRes offset with
        | .error m =>
          { appended := acc, fetches := [(offset, batch.length)], events := []
          , err := some (.datasetError
              ("Failed to add records at offset " ++ toString offset ++ ": " ++ m)) }
        | .ok _ =>
          let rest := migrateLoop env tws tds transform recs batch_size total
            (offset + batch2.length) (acc ++ batch2)
          { appended := rest.appended
          , fetches := (offset, batch.length) :: rest.fetches
          , events := .addRecords tws tds offset batch2.length :: rest.events
          , err := rest.err }
  else
    { appended := acc, fetches := [], events := [], err := none }
termination_by total - offset
decreasing_by
  have hlen : batch2.length = batch.length := transformBatch_ok_length transform batch batch2 ht
  have hne : batch ≠ [] := by intro hn; rw [hn] at hb; simp at hb
  have hpos : 0 < batch.length := List.length_pos.mpr hne
  omega

/-- `DatasetManager.create_dataset` (dataset_manager.py lines 69-123): resolve
the workspace (creating it if missing), build the fixed-schema settings, and
issue the create call; any failure is wrapped as a `DatasetError` unless it
already is one. -/
def create_dataset {α : Type} (env : Env α) (workspace dataset : String)
    (settings : SettingsDict) : List Event × Except PyErr (DS α) :=
  match get_workspace env workspace true with
  | (evs, .error e) =>
    (evs, .error (wrapUnless ("Failed to create dataset \x27" ++ dataset ++ "\x27: ") e))
  | (evs, .ok ws) =>
    let argilla_settings := buildSettings settings
    match env.dsCreate ws.name dataset argilla_settings with
    | .ok _ =>
      (evs ++ [.dsCreate ws.name dataset],
       .ok { name := dataset, workspace := ws.name, settings := argilla_settings
           , attrs := [], records := [] })
    | .error e =>
      (evs ++ [.dsCreate ws.name dataset],
       .error (wrapUnless ("Failed to create dataset \x27" ++ dataset ++ "\x27: ") e))

/-- The `AttributeError` raised by `len(source.records.to_list())` when
`client.datasets` returned `None` for the source. -/
def noneRecordsMsg : String := "\x27NoneType\x27 object has no attribute \x27records\x27"

/-- `DatasetManager.migrate_dataset` (dataset_manager.py lines 125-210):
resolve the source workspace without creating it, fetch the source dataset,
create the target via `create_dataset`, then run the batch loop; every
failure surfaces as a `DatasetError` (wrapped with "Migration failed: "
unless already a `DatasetError`). On success the returned dataset is the
created target carrying the appended records. -/
def migrate_dataset {α : Type} (env : Env α)
    (source_workspace source_dataset target_workspace target_dataset : String)
    (new_settings : SettingsDict) (transform : Option (α → Except String α))
    (batch_size : Nat) : List Event × Except PyErr (DS α) :=
  match get_workspace env source_workspace false with
  | (e1, .error e) => (e1, .error (wrapUnless "Migration failed: " e))
  | (e1, .ok sws) =>
    let e2 := e1 ++ [.dsLookup sws.name source_dataset]
    match env.dsLookup source_dataset sws.name with
    | .error e => (e2, .error (wrapUnless "Migration failed: " e))
    | .ok osrc =>
      match create_dataset env target_workspace target_dataset new_settings with
      | (e3, .error e) => (e2 ++ e3, .error (wrapUnless "Migration failed: " e))
      | (e3, .ok target) =>
        match osrc with
        | none => (e2 ++ e3, .error (.datasetError ("Migration failed: " ++ noneRecordsMsg)))
        | some src =>
          let total := src.records.length
          let lo := migrateLoop env target.workspace target.name transform src.records
            batch_size total 0 []
          match lo.err with
          | some e => (e2 ++ e3 ++ lo.events, .error (wrapUnless "Migration failed: " e))
          | none => (e2 ++ e3 ++ lo.events, .ok { target with records := lo.appended })

/-- The dict view of a live `rg.Settings` object when it is passed where a
settings dict is expected (`clone_dataset` hands `source.settings` straight
to `migrate_dataset`, whose `create_dataset` reads only the keys
`guidelines` and `labels` via `.get`). A live settings object exposes its
`guidelines`; it has no `labels` entry (labels live inside its questions),
so `settings.get("labels", default)` falls back to the default. -/
def settingsAsDict (s : ArgSettings) : SettingsDict :=
  [("guidelines", s.guidelines)]

/-- The `AttributeError` raised by `source.settings` when `client.datasets`
returned `None` for the source in `clone_dataset`. -/
def noneSettingsMsg : String := "\x27NoneType\x27 object has no attribute \x27settings\x27"

/-- `DatasetManager.clone_dataset` (dataset_manager.py lines 262-301): resolve
the source workspace without creating it, read the source's settings, and
delegate to `migrate_dataset` targeting `new_workspace or workspace` /
`new_name` with those settings and no transform (batch size left at its
default 100); failures are wrapped as `DatasetError` with "Dataset cloning
failed: " unless already a `DatasetError`. -/
def clone_dataset {α : Type} (env : Env α) (workspace dataset new_name : String)
    (new_workspace : Option String) : List Event × Except PyErr (DS α) :=
  match get_workspace env workspace false with
  | (e1, .error e) => (e1, .error (wrapUnless "Dataset cloning failed: " e))
  | (e1, .ok ws) =>
    let e2 := e1 ++ [.dsLookup ws.name dataset]
    match env.dsLookup dataset ws.name with
    | .error e => (e2, .error (wrapUnless "Dataset cloning failed: " e))
    | .ok none => (e2, .error (.datasetError ("Dataset cloning failed: " ++ noneSettingsMsg)))
    | .ok (some src) =>
      match migrate_dataset env workspace dataset (new_workspace.getD workspace) new_name
        (settingsAsDict src.settings) none 100 with
      | (e3, .error e) => (e2 ++ e3, .error (wrapUnless "Dataset cloning failed: " e))
      | (e3, .ok d) => (e2 ++ e3, .ok d)

/-- Python `setattr(obj, k, v)` on an attribute association list: replace the
value of the first binding of `k` (never adds a binding; callers guard with
`hasattr`). -/
def assocSet (attrs : List (String × Val)) (k : String) (v : Val) : List (String × Val) :=
  match attrs with
  | [] => []
  | (k', v') :: rest => if k' = k then (k', v) :: rest else (k', v') :: assocSet rest k v

/-- The `for key, value in new_settings.items(): if hasattr(dataset_obj, key):
setattr(dataset_obj, key, value)` loop of `update_dataset_settings`
(dataset_manager.py lines 251-253). -/
def applySettings (attrs : List (String × Val)) (new_settings : SettingsDict) :
    List (String × Val) :=
  new_settings.foldl (fun a kv => if (findVal a kv.1).isSome then assocSet a kv.1 kv.2 else a)
    attrs

/-- `DatasetManager.update_dataset_settings` (dataset_manager.py lines
212-260). With `create_new_version` it migrates into a dataset named
`dataset ++ "_v" ++ timestamp`; otherwise it fetches the live dataset and
assigns each settings key that exists as an attribute, silently skipping the
rest, and returns the object (which is `None`, with every key skipped, when
the lookup returned `None`). Failures wrap as `DatasetError` with "Settings
update failed: " unless already a `DatasetError`. -/
def update_dataset_settings {α : Type} (env : Env α) (workspace dataset : String)
    (new_settings : SettingsDict) (create_new_version : Bool) :
    List Event × Except PyErr (Option (DS α)) :=
  if create_new_version then
    let new_name := dataset ++ "_v" ++ env.now
    match migrate_dataset env workspace dataset workspace new_name new_settings none 100 with
    | (evs, .error e) => (evs, .error (wrapUnless "Settings update failed: " e))
    | (evs, .ok d) => (evs, .ok (some d))
  else
    match get_workspace env workspace false with
    | (e1, .error e) => (e1, .error (wrapUnless "Settings update failed: " e))
    | (e1, .ok ws) =>
      let e2 := e1 ++ [.dsLookup ws.name dataset]
      match env.dsLookup dataset ws.name with
      | .error e => (e2, .error (wrapUnless "Settings update failed: " e))
      | .ok none => (e2, .ok none)
      | .ok (some obj) => (e2, .ok (some { obj with attrs := applySettings obj.attrs new_settings }))

/-- The `AttributeError` raised by `dataset_obj.delete()` when
`client.datasets` returned `None` in `delete_dataset`. -/
def noneDeleteMsg : String := "\x27NoneType\x27 object has no attribute \x27delete\x27"

/-- `DatasetManager.delete_dataset` (dataset_manager.py lines 303-325):
resolve the workspace without creating it, fetch the dataset, call its
`delete()`; every failure — including the `AttributeError` on a `None`
lookup result — is wrapped as a `DatasetError` with "Dataset deletion
failed: " unless already a `DatasetError`. -/
def delete_dataset {α : Type} (env : Env α) (workspace dataset : String) :
    List Event × Except PyErr Unit :=
  match get_workspace env workspace false with
  | (e1, .error e) => (e1, .error (wrapUnless "Dataset deletion failed: " e))
  | (e1, .ok ws) =>
    let e2 := e1 ++ [.dsLookup ws.name dataset]
    match env.dsLookup dataset ws.name with
    | .error e => (e2, .error (wrapUnless "Dataset deletion failed: " e))
    | .ok none => (e2, .error (.datasetError ("Dataset deletion failed: " ++ noneDeleteMsg)))
    | .ok (some _) =>
      match env.dsDelete ws.name dataset with
      | .ok _ => (e2 ++ [.dsDelete ws.name dataset], .ok ())
      | .error e =>
        (e2 ++ [.dsDelete ws.name dataset],
         .error (wrapUnless "Dataset deletion failed: " e))

/-- The fetch trace `(offset, length)` pairs form a chain: each slice is
fetched at the offset reached by advancing the previous offset by the
previous batch length, starting from `start`. -/
def fetchChain (start : Nat) : List (Nat × Nat) → Prop
  | [] => True
  | (o, l) :: rest => o = start ∧ fetchChain (start + l) rest

instance fetchChainDecidable : (start : Nat) → (l : List (Nat × Nat)) →
    Decidable (fetchChain start l)
  | _, [] => isTrue trivial
  | start, (o, len) :: rest =>
    haveI := fetchChainDecidable (start + len) rest
    decidable_of_iff (o = start ∧ fetchChain (start + len) rest) Iff.rfl

/-- A concrete source dataset used to exercise the operations: its live
settings have two text fields and a `sentiment` question, i.e. a schema
different from the fixed one `create_dataset` builds. -/
def srcDS : DS Nat :=
  { name := "src", workspace := "ws"
  , settings := { guidelines := .str "g", fields := ["title", "body"]
                , questions := [("sentiment", .strList ["pos", "neg"])] }
  , attrs := [("guidelines", .str "old"), ("name", .str "src")]
  , records := [10, 11, 12, 13, 14] }

/-- A concrete happy-path environment: workspace `ws` exists and holds
`srcDS` under the name `src`; every mutating call succeeds; no other
workspace or dataset exists. -/
def envEx : Env Nat :=
  { wsLookup := fun n => if n = "ws" then .ok (some ⟨"ws"⟩) else .ok none
  , wsCreate := fun n => .ok ⟨n⟩
  , dsLookup := fun n w => if n = "src" && w = "ws" then .ok (some srcDS) else .ok none
  , dsCreate := fun _ _ _ => .ok ()
  , dsDelete := fun _ _ => .ok ()
  , addRes := fun _ => .ok ()
  , now := "20251012_000000" }

/-- An environment in which remote calls fail: workspace lookup raises
`NotFoundApiError` for `nf`, a generic SDK exception for `boom`, and returns
`None` otherwise; every other call raises a generic exception. -/
def envErr : Env Nat :=
  { wsLookup := fun n =>
      if n = "nf" then .error (.notFoundApiError "nf missing")
      else if n = "boom" then .error (.otherError "kaboom")
      else .ok none
  , wsCreate := fun n => .ok ⟨n⟩
  , dsLookup := fun _ _ => .error (.otherError "lookup blew up")
  , dsCreate := fun _ _ _ => .error (.otherError "create blew up")
  , dsDelete := fun _ _ => .error (.otherError "delete blew up")
  , addRes := fun _ => .error "add blew up"
  , now := "20251012_000000" }

/-- A transform that raises on the record `12` and passes every other record
through, used to exercise the abort path of the migration loop. -/
def exF : Nat → Except String Nat :=
  fun n => if n = 12 then .error "boom12" else .ok n

/-- A concrete settings dict: one key that is a live attribute of `srcDS`
and one that is not. -/
def nsEx : SettingsDict := [("guidelines", Val.str "new"), ("zzz", Val.str "x")]

theorem wrapUnless_dsErr (ctx : String) (e : PyErr) :
    ∃ m, wrapUnless ctx e = .datasetError m := by
  cases e with
  | datasetError m => exact ⟨m, rfl⟩
  | notFoundApiError m => exact ⟨ctx ++ m, rfl⟩
  | otherError m => exact ⟨ctx ++ m, rfl⟩

theorem get_workspace_found {α : Type} (env : Env α) (n : String) (c : Bool) (w : Workspace)
    (hw : env.wsLookup n = .ok (some w)) :
    get_workspace env n c = ([.wsLookup n], .ok w) := by
  simp [get_workspace, hw]

theorem get_workspace_err {α : Type} (env : Env α) (n : String) (c : Bool) (e : PyErr)
    (h : (get_workspace env n c).2 = .error e) : ∃ m, e = .datasetError m := by
  unfold get_workspace at h
  cases hl : env.wsLookup n with
  | ok ow =>
    cases ow with
    | some w => rw [hl] at h; simp at h
    | none =>
      rw [hl] at h
      cases c with
      | false =>
        simp at h
        exact ⟨_, h.symm⟩
      | true =>
        cases hc : env.wsCreate n with
        | ok w => rw [hc] at h; simp at h
        | error e' =>
          rw [hc] at h
          simp at h
          exact h ▸ wrapUnless_dsErr _ e'
  | error e' =>
    rw [hl] at h
    simp at h
    exact h ▸ wrapUnless_dsErr _ e'

section LoopEqs

variable {α : Type} (env : Env α) (tws tds : String)
  (t : Option (α → Except String α)) (recs : List α) (bs total : Nat)
  (offset : Nat) (acc : List α)

theorem migrateLoop_stop (h : ¬ offset < total) :
    migrateLoop env tws tds t recs bs total offset acc =
      { appended := acc, fetches := [], events := [], err := none } := by
  rw [migrateLoop, dif_neg h]

theorem migrateLoop_emptyBatch (h : offset < total)
    (hb : ((recs.drop offset).take bs).isEmpty) :
    migrateLoop env tws tds t recs bs total offset acc =
      { appended := acc, fetches := [(offset, 0)], events := [], err := none } := by
  rw [migrateLoop, dif_pos h]
  simp only [hb, dite_true]

theorem migrateLoop_tErr (h : offset < total)
    (hb : ¬ ((recs.drop offset).take bs).isEmpty) (m : String)
    (ht : transformBatch t ((recs.drop offset).take bs) = .error m) :
    migrateLoop env tws tds t recs bs total offset acc =
      { appended := acc, fetches := [(offset, ((recs.drop offset).take bs).length)]
      , events := []
      , err := some (.datasetError
          ("Record transformation failed at offset " ++ toString offset ++ ": " ++ m)) } := by
  rw [migrateLoop, dif_pos h, dif_neg hb]
  split
  · rename_i m2 heq
    rw [ht] at heq
    cases heq
    rfl
  · rename_i b2 heq
    rw [ht] at heq
    simp at heq

theorem migrateLoop_addErr (h : offset < total)
    (hb : ¬ ((recs.drop offset).take bs).isEmpty) (batch2 : List α) (m : String)
    (ht : transformBatch t ((recs.drop offset).take bs) = .ok batch2)
    (ha : env.addRes offset = .error m) :
    migrateLoop env tws tds t recs bs total offset acc =
      { appended := acc, fetches := [(offset, ((recs.drop offset).take bs).length)]
      , events := []
      , err := some (.datasetError
          ("Failed to add records at offset " ++ toString offset ++ ": " ++ m)) } := by
  rw [migrateLoop, dif_pos h, dif_neg hb]
  split
  · rename_i m2 heq
    rw [ht] at heq
    simp at heq
  · rename_i b2 heq
    rw [ht] at heq
    cases heq
    split
    · rename_i m2 heq2
      rw [ha] at heq2
      cases heq2
      rfl
    · rename_i u heq2
      rw [ha] at heq2
      simp at heq2

theorem migrateLoop_step (h : offset < total)
    (hb : ¬ ((recs.drop offset).take bs).isEmpty) (batch2 : List α)
    (ht : transformBatch t ((recs.drop offset).take bs) = .ok batch2)
    (ha : env.addRes offset = .ok ()) :
    migrateLoop env tws tds t recs bs total offset acc =
      { appended := (migrateLoop env tws tds t recs bs total (offset + batch2.length)
          (acc ++ batch2)).appended
      , fetches := (offset, ((recs.drop offset).take bs).length) ::
          (migrateLoop env tws tds t recs bs total (offset + batch2.length)
            (acc ++ batch2)).fetches
      , events := .addRecords tws tds offset batch2.length ::
          (migrateLoop env tws tds t recs bs total (offset + batch2.length)
            (acc ++ batch2)).events
      , err := (migrateLoop env tws tds t recs bs total (offset + batch2.length)
          (acc ++ batch2)).err } := by
  rw [migrateLoop, dif_pos h, dif_neg hb]
  split
  · rename_i m2 heq
    rw [ht] at heq
    simp at heq
  · rename_i b2 heq
    rw [ht] at heq
    cases heq
    split
    · rename_i m2 heq2
      rw [ha] at heq2
      simp at heq2
    · rfl

end LoopEqs

theorem take_len_drop {α : Type} (l : List α) (bs : Nat) :
    l.take bs ++ l.drop (l.take bs).length = l := by
  rw [List.length_take]
  rcases Nat.le_total bs l.length with h | h
  · rw [Nat.min_eq_left h, List.take_append_drop]
  · rw [Nat.min_eq_right h, List.drop_length, List.append_nil]
    exact List.take_of_length_le h

theorem loop_err_dsErr {α : Type} (env : Env α) (tws tds : String)
    (t : Option (α → Except String α)) (recs : List α) (bs total : Nat)
    (offset : Nat) (acc : List α) :
    ∀ e : PyErr, (migrateLoop env tws tds t recs bs total offset acc).err = some e →
      ∃ m, e = .datasetError m := by
  induction offset, acc using migrateLoop.induct env tws tds t recs bs total with
  | case1 offset acc h batch hb =>
    intro e he
    unfold batch at hb
    rw [migrateLoop_emptyBatch env tws tds t recs bs total offset acc h hb] at he
    simp at he
  | case2 offset acc h batch hb m ht =>
    intro e he
    unfold batch at hb ht
    rw [migrateLoop_tErr env tws tds t recs bs total offset acc h hb m ht] at he
    simp at he
    exact ⟨_, he.symm⟩
  | case3 offset acc h batch hb batch2 ht m ha =>
    intro e he
    unfold batch at hb ht
    rw [migrateLoop_addErr env tws tds t recs bs total offset acc h hb batch2 m ht ha] at he
    simp at he
    exact ⟨_, he.symm⟩
  | case4 offset acc h batch hb batch2 ht a ha ih =>
    intro e he
    unfold batch at hb ht
    cases a
    rw [migrateLoop_step env tws tds t recs bs total offset acc h hb batch2 ht ha] at he
    exact ih e he
  | case5 offset acc h =>
    intro e he
    rw [migrateLoop_stop env tws tds t recs bs total offset acc h] at he
    simp at he

/-- Claim C4: for every workspace name, `_get_workspace` returns the existing
workspace unchanged when the lookup finds it; when the lookup returns `None`
and creation is permitted it performs exactly one create call and returns the
created workspace; when the lookup returns `None` and creation is forbidden
it fails with a `DatasetError` signaling absence. -/
theorem claim_C4_workspace_resolver {α : Type} (env : Env α) (n : String) :
    (∀ (c : Bool) (w : Workspace), env.wsLookup n = .ok (some w) →
      get_workspace env n c = ([.wsLookup n], .ok w)) ∧
    (∀ w : Workspace, env.wsLookup n = .ok none → env.wsCreate n = .ok w →
      get_workspace env n true = ([.wsLookup n, .wsCreate n], .ok w)) ∧
    (env.wsLookup n = .ok none →
      get_workspace env n false =
        ([.wsLookup n], .error (.datasetError ("Workspace \x27" ++ n ++ "\x27 not found")))) := by
  refine ⟨fun c w hw => get_workspace_found env n c w hw, fun w hl hc => ?_, fun hl => ?_⟩
  · simp [get_workspace, hl, hc]
  · simp [get_workspace, hl]

/-- Witness for C4 at the concrete environment `envEx`: `ws` exists and is
returned unchanged; `new` is absent, so it is created when permitted and the
resolver fails when creation is forbidden. -/
theorem claim_C4_workspace_resolver_witness :
    get_workspace envEx "ws" false = ([.wsLookup "ws"], .ok ⟨"ws"⟩) ∧
    get_workspace envEx "new" true = ([.wsLookup "new", .wsCreate "new"], .ok ⟨"new"⟩) ∧
    get_workspace envEx "new" false =
      ([.wsLookup "new"], .error (.datasetError "Workspace \x27new\x27 not found")) :=
  ⟨(claim_C4_workspace_resolver envEx "ws").1 false ⟨"ws"⟩ rfl,
   (claim_C4_workspace_resolver envEx "new").2.1 ⟨"new"⟩ rfl rfl,
   (claim_C4_workspace_resolver envEx "new").2.2 rfl⟩

/-- Claim C10: in the standalone helper `get_or_create_workspace`, a `None`
lookup result is returned as-is with no workspace created; creation happens
exactly when the lookup raises `NotFoundApiError`; any other exception
propagates raw. -/
theorem claim_C10_lookup_none_returns_none {α : Type} (env : Env α) (n : String) :
    (env.wsLookup n = .ok none →
      get_or_create_workspace env n = ([.wsLookup n], .ok none)) ∧
    (∀ m (w : Workspace), env.wsLookup n = .error (.notFoundApiError m) →
      env.wsCreate n = .ok w →
      get_or_create_workspace env n = ([.wsLookup n, .wsCreate n], .ok (some ⟨n⟩))) ∧
    (∀ m, env.wsLookup n = .error (.otherError m) →
      get_or_create_workspace env n = ([.wsLookup n], .error (.otherError m))) := by
  refine ⟨fun hl => ?_, fun m w hl hc => ?_, fun m hl => ?_⟩
  · simp [get_or_create_workspace, hl]
  · simp [get_or_create_workspace, hl, hc]
  · simp [get_or_create_workspace, hl]

/-- Witness for C10 at `envErr`: lookup of `zzz` returns `None` and the
helper returns `None` having performed only the lookup; lookup of `nf`
raises `NotFoundApiError` and triggers the one creation. -/
theorem claim_C10_lookup_none_returns_none_witness :
    get_or_create_workspace envErr "zzz" = ([.wsLookup "zzz"], .ok none) ∧
    get_or_create_workspace envErr "nf" =
      ([.wsLookup "nf", .wsCreate "nf"], .ok (some ⟨"nf"⟩)) ∧
    get_or_create_workspace envErr "boom" =
      ([.wsLookup "boom"], .error (.otherError "kaboom")) :=
  ⟨(claim_C10_lookup_none_returns_none envErr "zzz").1 rfl,
   (claim_C10_lookup_none_returns_none envErr "nf").2.1 "nf missing" ⟨"nf"⟩ rfl rfl,
   (claim_C10_lookup_none_returns_none envErr "boom").2.2 "kaboom" rfl⟩

end ArgillaManager

namespace ArgillaManager

theorem loop_no_transform {α : Type} (env : Env α) (tws tds : String)
    (recs : List α) (bs : Nat) (hadd : ∀ o, env.addRes o = .ok ()) (hbs : 1 ≤ bs)
    (offset : Nat) (acc : List α) :
    (migrateLoop env tws tds none recs bs recs.length offset acc).err = none ∧
    (migrateLoop env tws tds none recs bs recs.length offset acc).appended
      = acc ++ recs.drop offset := by
  induction offset, acc using migrateLoop.induct env tws tds none recs bs recs.length with
  | case1 offset acc h batch hb =>
    unfold batch at hb
    exfalso
    rw [List.isEmpty_iff, List.take_eq_nil_iff] at hb
    rcases hb with hb | hb
    · omega
    · rw [List.drop_eq_nil_iff] at hb
      omega
  | case2 offset acc h batch hb m ht =>
    unfold batch at ht
    simp [transformBatch] at ht
  | case3 offset acc h batch hb batch2 ht m ha =>
    rw [hadd offset] at ha
    simp at ha
  | case4 offset acc h batch hb batch2 ht a ha ih =>
    unfold batch at hb ht
    cases a
    simp only [transformBatch] at ht
    injection ht with ht
    subst ht
    rw [migrateLoop_step env tws tds none recs bs recs.length offset acc h hb _ rfl ha]
    refine ⟨ih.1, ?_⟩
    show (migrateLoop env tws tds none recs bs recs.length _ _).appended = _
    rw [ih.2, List.append_assoc]
    congr 1
    rw [← List.drop_drop]
    exact take_len_drop (recs.drop offset) bs
  | case5 offset acc h =>
    rw [migrateLoop_stop env tws tds none recs bs recs.length offset acc h]
    refine ⟨rfl, ?_⟩
    show acc = acc ++ recs.drop offset
    rw [List.drop_eq_nil_of_le (by omega), List.append_nil]

theorem loop_events_addRecords {α : Type} (env : Env α) (tws tds : String)
    (t : Option (α → Except String α)) (recs : List α) (bs total : Nat)
    (offset : Nat) (acc : List α) :
    ∀ ev ∈ (migrateLoop env tws tds t recs bs total offset acc).events,
      ∃ o l, ev = .addRecords tws tds o l := by
  induction offset, acc using migrateLoop.induct env tws tds t recs bs total with
  | case1 offset acc h batch hb =>
    unfold batch at hb
    rw [migrateLoop_emptyBatch env tws tds t recs bs total offset acc h hb]
    simp
  | case2 offset acc h batch hb m ht =>
    unfold batch at hb ht
    rw [migrateLoop_tErr env tws tds t recs bs total offset acc h hb m ht]
    simp
  | case3 offset acc h batch hb batch2 ht m ha =>
    unfold batch at hb ht
    rw [migrateLoop_addErr env tws tds t recs bs total offset acc h hb batch2 m ht ha]
    simp
  | case4 offset acc h batch hb batch2 ht a ha ih =>
    unfold batch at hb ht
    cases a
    rw [migrateLoop_step env tws tds t recs bs total offset acc h hb batch2 ht ha]
    intro ev hev
    rcases List.mem_cons.mp hev with hev | hev
    · exact ⟨offset, batch2.length, hev⟩
    · exact ih ev hev
  | case5 offset acc h =>
    rw [migrateLoop_stop env tws tds t recs bs total offset acc h]
    simp

theorem loop_fetchChain {α : Type} (env : Env α) (tws tds : String)
    (t : Option (α → Except String α)) (recs : List α) (bs total : Nat)
    (offset : Nat) (acc : List α) :
    fetchChain offset (migrateLoop env tws tds t recs bs total offset acc).fetches := by
  induction offset, acc using migrateLoop.induct env tws tds t recs bs total with
  | case1 offset acc h batch hb =>
    unfold batch at hb
    rw [migrateLoop_emptyBatch env tws tds t recs bs total offset acc h hb]
    exact ⟨rfl, trivial⟩
  | case2 offset acc h batch hb m ht =>
    unfold batch at hb ht
    rw [migrateLoop_tErr env tws tds t recs bs total offset acc h hb m ht]
    exact ⟨rfl, trivial⟩
  | case3 offset acc h batch hb batch2 ht m ha =>
    unfold batch at hb ht
    rw [migrateLoop_addErr env tws tds t recs bs total offset acc h hb batch2 m ht ha]
    exact ⟨rfl, trivial⟩
  | case4 offset acc h batch hb batch2 ht a ha ih =>
    unfold batch at hb ht
    cases a
    rw [migrateLoop_step env tws tds t recs bs total offset acc h hb batch2 ht ha]
    have hlen : batch2.length = ((recs.drop offset).take bs).length :=
      transformBatch_ok_length t _ batch2 ht
    refine ⟨rfl, ?_⟩
    show fetchChain (offset + ((recs.drop offset).take bs).length) _
    rw [← hlen]
    exact ih
  | case5 offset acc h =>
    rw [migrateLoop_stop env tws tds t recs bs total offset acc h]
    trivial

theorem loop_stopCond {α : Type} (env : Env α) (tws tds : String)
    (t : Option (α → Except String α)) (recs : List α) (bs total : Nat)
    (offset : Nat) (acc : List α) :
    (migrateLoop env tws tds t recs bs total offset acc).err = none →
      total ≤ offset +
        (((migrateLoop env tws tds t recs bs total offset acc).fetches).map Prod.snd).sum ∨
      (∃ o, ((migrateLoop env tws tds t recs bs total offset acc).fetches).getLast? =
        some (o, 0)) := by
  induction offset, acc using migrateLoop.induct env tws tds t recs bs total with
  | case1 offset acc h batch hb =>
    unfold batch at hb
    rw [migrateLoop_emptyBatch env tws tds t recs bs total offset acc h hb]
    intro
    right
    exact ⟨offset, rfl⟩
  | case2 offset acc h batch hb m ht =>
    unfold batch at hb ht
    rw [migrateLoop_tErr env tws tds t recs bs total offset acc h hb m ht]
    intro he
    simp at he
  | case3 offset acc h batch hb batch2 ht m ha =>
    unfold batch at hb ht
    rw [migrateLoop_addErr env tws tds t recs bs total offset acc h hb batch2 m ht ha]
    intro he
    simp at he
  | case4 offset acc h batch hb batch2 ht a ha ih =>
    unfold batch at hb ht
    cases a
    rw [migrateLoop_step env tws tds t recs bs total offset acc h hb batch2 ht ha]
    intro he
    have hlen : batch2.length = ((recs.drop offset).take bs).length :=
      transformBatch_ok_length t _ batch2 ht
    rcases ih he with hle | ⟨o, hlast⟩
    · left
      simp only [List.map_cons, List.sum_cons]
      omega
    · right
      refine ⟨o, ?_⟩
      cases hrest : (migrateLoop env tws tds t recs bs total (offset + batch2.length)
          (acc ++ batch2)).fetches with
      | nil => rw [hrest] at hlast; simp at hlast
      | cons p ps =>
        rw [hrest] at hlast
        show ((offset, ((recs.drop offset).take bs).length) :: p :: ps).getLast? = some (o, 0)
        rw [List.getLast?_cons_cons]
        exact hlast
  | case5 offset acc h =>
    rw [migrateLoop_stop env tws tds t recs bs total offset acc h]
    intro
    left
    simp
    omega

end ArgillaManager

namespace ArgillaManager

theorem migrate_happy {α : Type} (env : Env α) (sw sd tw td : String) (ns : SettingsDict)
    (t : Option (α → Except String α)) (bs : Nat) (w : Workspace) (src target : DS α)
    (e3 : List Event)
    (hw : env.wsLookup sw = .ok (some w))
    (hs : env.dsLookup sd w.name = .ok (some src))
    (hcd : create_dataset env tw td ns = (e3, .ok target)) :
    migrate_dataset env sw sd tw td ns t bs =
      (match (migrateLoop env target.workspace target.name t src.records bs
          src.records.length 0 []).err with
       | some e =>
         ([.wsLookup sw, .dsLookup w.name sd] ++ e3 ++
            (migrateLoop env target.workspace target.name t src.records bs
              src.records.length 0 []).events,
          .error (wrapUnless "Migration failed: " e))
       | none =>
         ([.wsLookup sw, .dsLookup w.name sd] ++ e3 ++
            (migrateLoop env target.workspace target.name t src.records bs
              src.records.length 0 []).events,
          .ok { target with records :=
            (migrateLoop env target.workspace target.name t src.records bs
              src.records.length 0 []).appended })) := by
  unfold migrate_dataset
  rw [get_workspace_found env sw false w hw]
  simp only [hs, hcd]
  rfl

/-- Claim C2: with no transform supplied, and a reachable source and
creatable target, `migrate_dataset` succeeds and the target ends up with
exactly the source's records, in the source's order (so exactly
`total_records` records are appended). Batch size is at least 1, as in the
code's default of 100. -/
theorem claim_C2_migration_moves_all_records {α : Type} (env : Env α)
    (sw sd tw td : String) (ns : SettingsDict) (bs : Nat) (w : Workspace)
    (src target : DS α) (e3 : List Event)
    (hw : env.wsLookup sw = .ok (some w))
    (hs : env.dsLookup sd w.name = .ok (some src))
    (hcd : create_dataset env tw td ns = (e3, .ok target))
    (hadd : ∀ o, env.addRes o = .ok ())
    (hbs : 1 ≤ bs) :
    (migrate_dataset env sw sd tw td ns none bs).2 =
      .ok { target with records := src.records } := by
  rw [migrate_happy env sw sd tw td ns none bs w src target e3 hw hs hcd]
  have h1 := (loop_no_transform env target.workspace target.name src.records bs hadd hbs 0 []).1
  have h2 := (loop_no_transform env target.workspace target.name src.records bs hadd hbs 0 []).2
  rw [List.drop_zero, List.nil_append] at h2
  simp only [h1, h2]

/-- Witness for C2: migrating the five-record `srcDS` in batches of 2 in the
happy-path environment `envEx` yields a target holding exactly those five
records in order. -/
theorem claim_C2_migration_moves_all_records_witness :
    (migrate_dataset envEx "ws" "src" "ws" "tgt" [] none 2).2 =
      .ok { name := "tgt", workspace := "ws", settings := buildSettings []
          , attrs := [], records := [10, 11, 12, 13, 14] } :=
  claim_C2_migration_moves_all_records envEx "ws" "src" "ws" "tgt" [] 2 ⟨"ws"⟩ srcDS
    { name := "tgt", workspace := "ws", settings := buildSettings []
    , attrs := [], records := [] }
    [.wsLookup "ws", .dsCreate "ws" "tgt"] rfl rfl rfl (fun _ => rfl) (by omega)

end ArgillaManager

namespace ArgillaManager

/-- Claim C3: if the caller-supplied transform raises on any record of the
batch fetched at the current offset, the migration loop returns immediately
with a `DatasetError` naming that offset, appending no record of that batch
(and performing no add call for it); and `migrate_dataset` surfaces exactly
that `DatasetError` to its caller. -/
theorem claim_C3_transform_abort {α : Type} (env : Env α) :
    (∀ (tws tds : String) (f : α → Except String α) (recs : List α)
       (bs total offset : Nat) (acc : List α) (m : String),
       offset < total →
       ¬ ((recs.drop offset).take bs).isEmpty →
       mapExcept f ((recs.drop offset).take bs) = .error m →
       migrateLoop env tws tds (some f) recs bs total offset acc =
         { appended := acc
         , fetches := [(offset, ((recs.drop offset).take bs).length)]
         , events := []
         , err := some (.datasetError
             ("Record transformation failed at offset " ++ toString offset ++ ": " ++ m)) }) ∧
    (∀ (sw sd tw td : String) (ns : SettingsDict) (t : Option (α → Except String α))
       (bs : Nat) (w : Workspace) (src target : DS α) (e3 : List Event) (e : PyErr),
       env.wsLookup sw = .ok (some w) →
       env.dsLookup sd w.name = .ok (some src) →
       create_dataset env tw td ns = (e3, .ok target) →
       (migrateLoop env target.workspace target.name t src.records bs
          src.records.length 0 []).err = some e →
       (migrate_dataset env sw sd tw td ns t bs).2 = .error e) := by
  constructor
  · intro tws tds f recs bs total offset acc m h hb hm
    exact migrateLoop_tErr env tws tds (some f) recs bs total offset acc h hb m hm
  · intro sw sd tw td ns t bs w src target e3 e hw hs hcd he
    rw [migrate_happy env sw sd tw td ns t bs w src target e3 hw hs hcd]
    obtain ⟨m, rfl⟩ := loop_err_dsErr env target.workspace target.name t src.records bs
      src.records.length 0 [] e he
    simp only [he]
    rfl

/-- Witness for C3: with batch size 2 over `srcDS`, the transform `exF`
raises on the batch `[12, 13]` fetched at offset 2; the loop returns the
records appended so far untouched together with the offset-2
`DatasetError`, and `migrate_dataset` returns exactly that error. -/
theorem claim_C3_transform_abort_witness :
    migrateLoop envEx "ws" "tgt" (some exF) srcDS.records 2 5 2 [10, 11] =
      { appended := [10, 11], fetches := [(2, 2)], events := []
      , err := some (.datasetError
          ("Record transformation failed at offset " ++ toString 2 ++ ": boom12")) } ∧
    (migrate_dataset envEx "ws" "src" "ws" "tgt" [] (some exF) 2).2 =
      .error (.datasetError
        ("Record transformation failed at offset " ++ toString 2 ++ ": boom12")) := by
  refine ⟨(claim_C3_transform_abort envEx).1 "ws" "tgt" exF srcDS.records 2 5 2 [10, 11]
      "boom12" (by omega) (by decide) rfl, ?_⟩
  refine (claim_C3_transform_abort envEx).2 "ws" "src" "ws" "tgt" [] (some exF) 2 ⟨"ws"⟩ srcDS
    { name := "tgt", workspace := "ws", settings := buildSettings []
    , attrs := [], records := [] }
    [.wsLookup "ws", .dsCreate "ws" "tgt"] _ rfl rfl rfl ?_
  rw [migrateLoop_step envEx "ws" "tgt" (some exF) srcDS.records 2 srcDS.records.length 0 []
    (by decide) (by decide) [10, 11] rfl rfl]
  show (migrateLoop envEx "ws" "tgt" (some exF) srcDS.records 2 srcDS.records.length
    2 [10, 11]).err = _
  rw [migrateLoop_tErr envEx "ws" "tgt" (some exF) srcDS.records 2 srcDS.records.length
    2 [10, 11] (by decide) (by decide) "boom12" rfl]
  rfl

end ArgillaManager

namespace ArgillaManager

/-- Claim C9: the batch loop's fetches form a chain that starts at the given
offset and advances by each fetched batch's length; when the loop finishes
without error it has either advanced past `total` or its last fetch was
empty; and `migrate_dataset` runs this loop from offset 0 over the source's
records with `total` equal to the record count fetched before the loop. -/
theorem claim_C9_loop_offsets_terminate {α : Type} (env : Env α) :
    (∀ (tws tds : String) (t : Option (α → Except String α)) (recs : List α)
       (bs total offset : Nat) (acc : List α),
       fetchChain offset (migrateLoop env tws tds t recs bs total offset acc).fetches) ∧
    (∀ (tws tds : String) (t : Option (α → Except String α)) (recs : List α)
       (bs total offset : Nat) (acc : List α),
       (migrateLoop env tws tds t recs bs total offset acc).err = none →
       total ≤ offset +
         (((migrateLoop env tws tds t recs bs total offset acc).fetches).map Prod.snd).sum ∨
       (∃ o, ((migrateLoop env tws tds t recs bs total offset acc).fetches).getLast? =
         some (o, 0))) ∧
    (∀ (sw sd tw td : String) (ns : SettingsDict) (t : Option (α → Except String α))
       (bs : Nat) (w : Workspace) (src target : DS α) (e3 : List Event),
       env.wsLookup sw = .ok (some w) →
       env.dsLookup sd w.name = .ok (some src) →
       create_dataset env tw td ns = (e3, .ok target) →
       (migrateLoop env target.workspace target.name t src.records bs
          src.records.length 0 []).err = none →
       (migrate_dataset env sw sd tw td ns t bs).2 =
         .ok { target with records :=
           (migrateLoop env target.workspace target.name t src.records bs
             src.records.length 0 []).appended }) := by
  refine ⟨fun tws tds t recs bs total offset acc =>
      loop_fetchChain env tws tds t recs bs total offset acc,
    fun tws tds t recs bs total offset acc =>
      loop_stopCond env tws tds t recs bs total offset acc,
    fun sw sd tw td ns t bs w src target e3 hw hs hcd he => ?_⟩
  rw [migrate_happy env sw sd tw td ns t bs w src target e3 hw hs hcd]
  simp only [he]

/-- Witness for C9: over the five records of `srcDS` with batch size 2 the
loop from offset 0 fetches at offsets 0, 2, 4 with lengths 2, 2, 1, the
chain property holds, the no-error run covers all 5 records, and `migrate`
returns the target with the appended records. -/
theorem claim_C9_loop_offsets_terminate_witness :
    fetchChain 0 (migrateLoop envEx "ws" "tgt" (none : Option (Nat → Except String Nat))
      srcDS.records 2 5 0 []).fetches ∧
    (5 ≤ 0 + (((migrateLoop envEx "ws" "tgt" (none : Option (Nat → Except String Nat))
        srcDS.records 2 5 0 []).fetches).map Prod.snd).sum ∨
      (∃ o, ((migrateLoop envEx "ws" "tgt" (none : Option (Nat → Except String Nat))
        srcDS.records 2 5 0 []).fetches).getLast? = some (o, 0))) ∧
    (migrate_dataset envEx "ws" "src" "ws" "tgt" [] none 2).2 =
      .ok { name := "tgt", workspace := "ws", settings := buildSettings []
          , attrs := []
          , records := (migrateLoop envEx "ws" "tgt"
              (none : Option (Nat → Except String Nat)) srcDS.records 2 5 0 []).appended } := by
  have hloop : migrateLoop envEx "ws" "tgt" (none : Option (Nat → Except String Nat))
      srcDS.records 2 5 0 [] =
      migrateLoop envEx "ws" "tgt" none srcDS.records 2 srcDS.records.length 0 [] := rfl
  have herr := (loop_no_transform envEx "ws" "tgt" srcDS.records 2 (fun _ => rfl)
    (by omega) 0 []).1
  refine ⟨(claim_C9_loop_offsets_terminate envEx).1 "ws" "tgt" none srcDS.records 2 5 0 [],
    (claim_C9_loop_offsets_terminate envEx).2.1 "ws" "tgt" none srcDS.records 2 5 0 []
      (hloop ▸ herr),
    (claim_C9_loop_offsets_terminate envEx).2.2 "ws" "src" "ws" "tgt" [] none 2 ⟨"ws"⟩ srcDS
      { name := "tgt", workspace := "ws", settings := buildSettings []
      , attrs := [], records := [] }
      [.wsLookup "ws", .dsCreate "ws" "tgt"] rfl rfl rfl herr⟩

end ArgillaManager

namespace ArgillaManager

theorem get_workspace_noMut {α : Type} (env : Env α) (n : String) (c : Bool) :
    ∀ ev ∈ (get_workspace env n c).1, dsMutTarget ev = none := by
  unfold get_workspace
  cases hl : env.wsLookup n with
  | ok ow =>
    cases ow with
    | some w => simp [dsMutTarget]
    | none =>
      cases c with
      | false => simp [dsMutTarget]
      | true =>
        cases hc : env.wsCreate n with
        | ok w => simp [dsMutTarget]
        | error e => simp [dsMutTarget]
  | error e => simp [dsMutTarget]

theorem create_dataset_eqOk {α : Type} (env : Env α) (workspace dataset : String)
    (s : SettingsDict) (evs : List Event) (ws : Workspace)
    (hg : get_workspace env workspace true = (evs, .ok ws)) :
    create_dataset env workspace dataset s =
      (match env.dsCreate ws.name dataset (buildSettings s) with
       | .ok _ =>
         (evs ++ [.dsCreate ws.name dataset],
          .ok { name := dataset, workspace := ws.name, settings := buildSettings s
              , attrs := [], records := [] })
       | .error e =>
         (evs ++ [.dsCreate ws.name dataset],
          .error (wrapUnless ("Failed to create dataset \x27" ++ dataset ++ "\x27: ") e))) := by
  unfold create_dataset
  rw [hg]

theorem create_dataset_eqErr {α : Type} (env : Env α) (workspace dataset : String)
    (s : SettingsDict) (evs : List Event) (e : PyErr)
    (hg : get_workspace env workspace true = (evs, .error e)) :
    create_dataset env workspace dataset s =
      (evs, .error (wrapUnless ("Failed to create dataset \x27" ++ dataset ++ "\x27: ") e)) := by
  unfold create_dataset
  rw [hg]

theorem create_dataset_shape {α : Type} (env : Env α) (workspace dataset : String)
    (s : SettingsDict) :
    (∀ target e3, create_dataset env workspace dataset s = (e3, .ok target) →
      target.name = dataset ∧ target.records = [] ∧
      target.settings = buildSettings s) ∧
    (∀ ev ∈ (create_dataset env workspace dataset s).1,
      dsMutTarget ev = none ∨ dsMutTarget ev = some dataset) := by
  cases hg : get_workspace env workspace true with
  | mk evs r =>
    have hevs : ∀ ev ∈ evs, dsMutTarget ev = none := by
      intro ev hev
      have := get_workspace_noMut env workspace true ev
      rw [hg] at this
      exact this hev
    cases r with
    | error e =>
      rw [create_dataset_eqErr env workspace dataset s evs e hg]
      constructor
      · intro target e3 h
        simp at h
      · intro ev hev
        exact Or.inl (hevs ev hev)
    | ok ws =>
      rw [create_dataset_eqOk env workspace dataset s evs ws hg]
      cases hc : env.dsCreate ws.name dataset (buildSettings s) with
      | ok u =>
        constructor
        · intro target e3 h
          simp at h
          rw [← h.2]
          exact ⟨rfl, rfl, rfl⟩
        · intro ev hev
          simp only [List.mem_append, List.mem_singleton] at hev
          rcases hev with hev | hev
          · exact Or.inl (hevs ev hev)
          · subst hev
            exact Or.inr rfl
      | error e =>
        constructor
        · intro target e3 h
          simp at h
        · intro ev hev
          simp only [List.mem_append, List.mem_singleton] at hev
          rcases hev with hev | hev
          · exact Or.inl (hevs ev hev)
          · subst hev
            exact Or.inr rfl

end ArgillaManager

namespace ArgillaManager

section MigrateEqs

variable {α : Type} (env : Env α) (sw sd tw td : String) (ns : SettingsDict)
  (t : Option (α → Except String α)) (bs : Nat)

theorem migrate_eqWsErr (e1 : List Event) (e : PyErr)
    (hg : get_workspace env sw false = (e1, .error e)) :
    migrate_dataset env sw sd tw td ns t bs =
      (e1, .error (wrapUnless "Migration failed: " e)) := by
  unfold migrate_dataset
  rw [hg]

theorem migrate_eqLookupErr (e1 : List Event) (sws : Workspace) (e : PyErr)
    (hg : get_workspace env sw false = (e1, .ok sws))
    (hl : env.dsLookup sd sws.name = .error e) :
    migrate_dataset env sw sd tw td ns t bs =
      (e1 ++ [.dsLookup sws.name sd], .error (wrapUnless "Migration failed: " e)) := by
  unfold migrate_dataset
  rw [hg]
  simp only [hl]

theorem migrate_eqCreateErr (e1 : List Event) (sws : Workspace)
    (osrc : Option (DS α)) (e3 : List Event) (e : PyErr)
    (hg : get_workspace env sw false = (e1, .ok sws))
    (hl : env.dsLookup sd sws.name = .ok osrc)
    (hc : create_dataset env tw td ns = (e3, .error e)) :
    migrate_dataset env sw sd tw td ns t bs =
      ((e1 ++ [.dsLookup sws.name sd]) ++ e3,
       .error (wrapUnless "Migration failed: " e)) := by
  unfold migrate_dataset
  rw [hg]
  simp only [hl, hc]

theorem migrate_eqSrcNone (e1 : List Event) (sws : Workspace)
    (e3 : List Event) (target : DS α)
    (hg : get_workspace env sw false = (e1, .ok sws))
    (hl : env.dsLookup sd sws.name = .ok none)
    (hc : create_dataset env tw td ns = (e3, .ok target)) :
    migrate_dataset env sw sd tw td ns t bs =
      ((e1 ++ [.dsLookup sws.name sd]) ++ e3,
       .error (.datasetError ("Migration failed: " ++ noneRecordsMsg))) := by
  unfold migrate_dataset
  rw [hg]
  simp only [hl, hc]

theorem migrate_eqRun (e1 : List Event) (sws : Workspace)
    (e3 : List Event) (src target : DS α)
    (hg : get_workspace env sw false = (e1, .ok sws))
    (hl : env.dsLookup sd sws.name = .ok (some src))
    (hc : create_dataset env tw td ns = (e3, .ok target)) :
    migrate_dataset env sw sd tw td ns t bs =
      (match (migrateLoop env target.workspace target.name t src.records bs
          src.records.length 0 []).err with
       | some e =>
         ((e1 ++ [.dsLookup sws.name sd]) ++ e3 ++
            (migrateLoop env target.workspace target.name t src.records bs
              src.records.length 0 []).events,
          .error (wrapUnless "Migration failed: " e))
       | none =>
         ((e1 ++ [.dsLookup sws.name sd]) ++ e3 ++
            (migrateLoop env target.workspace target.name t src.records bs
              src.records.length 0 []).events,
          .ok { target with records :=
            (migrateLoop env target.workspace target.name t src.records bs
              src.records.length 0 []).appended })) := by
  unfold migrate_dataset
  rw [hg]
  simp only [hl, hc]

end MigrateEqs

theorem migrate_shape {α : Type} (env : Env α) (sw sd tw td : String) (ns : SettingsDict)
    (t : Option (α → Except String α)) (bs : Nat) :
    (∀ d, (migrate_dataset env sw sd tw td ns t bs).2 = .ok d → d.name = td) ∧
    (∀ ev ∈ (migrate_dataset env sw sd tw td ns t bs).1,
      dsMutTarget ev = none ∨ dsMutTarget ev = some td) := by
  cases hg : get_workspace env sw false with
  | mk e1 r1 =>
    have he1 : ∀ ev ∈ e1, dsMutTarget ev = none := by
      intro ev hev
      have := get_workspace_noMut env sw false ev
      rw [hg] at this
      exact this hev
    cases r1 with
    | error e =>
      rw [migrate_eqWsErr env sw sd tw td ns t bs e1 e hg]
      exact ⟨fun d h => by simp at h, fun ev hev => Or.inl (he1 ev hev)⟩
    | ok sws =>
      have he2 : ∀ ev ∈ e1 ++ [Event.dsLookup sws.name sd], dsMutTarget ev = none := by
        intro ev hev
        rcases List.mem_append.mp hev with hev | hev
        · exact he1 ev hev
        · rw [List.mem_singleton.mp hev]
          rfl
      cases hl : env.dsLookup sd sws.name with
      | error e =>
        rw [migrate_eqLookupErr env sw sd tw td ns t bs e1 sws e hg hl]
        exact ⟨fun d h => by simp at h, fun ev hev => Or.inl (he2 ev hev)⟩
      | ok osrc =>
        cases hc : create_dataset env tw td ns with
        | mk e3 r3 =>
          have he3 : ∀ ev ∈ e3, dsMutTarget ev = none ∨ dsMutTarget ev = some td := by
            intro ev hev
            have := (create_dataset_shape env tw td ns).2 ev
            rw [hc] at this
            exact this hev
          cases r3 with
          | error e =>
            rw [migrate_eqCreateErr env sw sd tw td ns t bs e1 sws osrc e3 e hg hl hc]
            refine ⟨fun d h => by simp at h, fun ev hev => ?_⟩
            rcases List.mem_append.mp hev with hev | hev
            · exact Or.inl (he2 ev hev)
            · exact he3 ev hev
          | ok target =>
            have htname : target.name = td :=
              ((create_dataset_shape env tw td ns).1 target e3 hc).1
            cases osrc with
            | none =>
              rw [migrate_eqSrcNone env sw sd tw td ns t bs e1 sws e3 target hg hl hc]
              refine ⟨fun d h => by simp at h, fun ev hev => ?_⟩
              rcases List.mem_append.mp hev with hev | hev
              · exact Or.inl (he2 ev hev)
              · exact he3 ev hev
            | some src =>
              rw [migrate_eqRun env sw sd tw td ns t bs e1 sws e3 src target hg hl hc]
              have hloopev : ∀ ev ∈ (migrateLoop env target.workspace target.name t
                  src.records bs src.records.length 0 []).events,
                  dsMutTarget ev = none ∨ dsMutTarget ev = some td := by
                intro ev hev
                obtain ⟨o, l, rfl⟩ := loop_events_addRecords env target.workspace target.name
                  t src.records bs src.records.length 0 [] ev hev
                right
                show some target.name = some td
                rw [htname]
              cases herr : (migrateLoop env target.workspace target.name t src.records bs
                  src.records.length 0 []).err with
              | some e =>
                refine ⟨fun d h => by simp at h, fun ev hev => ?_⟩
                simp only [List.mem_append, List.mem_singleton] at hev
                rcases hev with ((hev | hev) | hev) | hev
                · exact Or.inl (he1 ev hev)
                · subst hev
                  exact Or.inl rfl
                · exact he3 ev hev
                · exact hloopev ev hev
              | none =>
                refine ⟨fun d h => ?_, fun ev hev => ?_⟩
                · simp at h
                  rw [← h]
                  exact htname
                · simp only [List.mem_append, List.mem_singleton] at hev
                  rcases hev with ((hev | hev) | hev) | hev
                  · exact Or.inl (he1 ev hev)
                  · subst hev
                    exact Or.inl rfl
                  · exact he3 ev hev
                  · exact hloopev ev hev

end ArgillaManager

namespace ArgillaManager

theorem update_true_eq {α : Type} (env : Env α) (workspace dataset : String)
    (ns : SettingsDict) :
    update_dataset_settings env workspace dataset ns true =
      (match migrate_dataset env workspace dataset workspace
          (dataset ++ "_v" ++ env.now) ns none 100 with
       | (evs, .error e) => (evs, .error (wrapUnless "Settings update failed: " e))
       | (evs, .ok d) => (evs, .ok (some d))) := by
  rfl

/-- Claim C5: `update_dataset_settings` with `create_new_version=True` builds
a new name by suffixing `_v` and the timestamp, which is always distinct
from the original name; a successful result carries exactly that new name;
and no SDK call in the whole operation mutates a dataset named like the
original — the original is only read. -/
theorem claim_C5_new_version_frame {α : Type} (env : Env α) (workspace dataset : String)
    (ns : SettingsDict) :
    dataset ++ "_v" ++ env.now ≠ dataset ∧
    (∀ d : DS α, (update_dataset_settings env workspace dataset ns true).2 = .ok (some d) →
      d.name = dataset ++ "_v" ++ env.now ∧ d.name ≠ dataset) ∧
    (∀ ev ∈ (update_dataset_settings env workspace dataset ns true).1,
      dsMutTarget ev ≠ some dataset) := by
  have hne : dataset ++ "_v" ++ env.now ≠ dataset := by
    intro hcontra
    have hl := congrArg String.length hcontra
    rw [String.length_append, String.length_append] at hl
    have h2 : ("_v" : String).length = 2 := rfl
    omega
  refine ⟨hne, ?_, ?_⟩
  · intro d hd
    rw [update_true_eq] at hd
    cases hm : migrate_dataset env workspace dataset workspace
        (dataset ++ "_v" ++ env.now) ns none 100 with
    | mk evs r =>
      rw [hm] at hd
      cases r with
      | error e => simp at hd
      | ok d2 =>
        simp at hd
        have hname := (migrate_shape env workspace dataset workspace
          (dataset ++ "_v" ++ env.now) ns none 100).1 d2 (by rw [hm])
        rw [← hd]
        exact ⟨hname, hname ▸ hne⟩
  · intro ev hev
    rw [update_true_eq] at hev
    cases hm : migrate_dataset env workspace dataset workspace
        (dataset ++ "_v" ++ env.now) ns none 100 with
    | mk evs r =>
      rw [hm] at hev
      have hmem : ev ∈ evs := by
        cases r with
        | error e => exact hev
        | ok d2 => exact hev
      have hmut := (migrate_shape env workspace dataset workspace
        (dataset ++ "_v" ++ env.now) ns none 100).2 ev (by rw [hm]; exact hmem)
      rcases hmut with hnone | htd
      · rw [hnone]
        simp
      · rw [htd]
        intro hx
        injection hx with hx
        exact hne hx

end ArgillaManager

namespace ArgillaManager

/-- Witness for C5 at `envEx`: updating `src` with versioning produces the
dataset named `src_v<timestamp>`, distinct from `src`, and a read-only event
such as the workspace lookup never targets `src` mutably. -/
theorem claim_C5_new_version_frame_witness :
    ("src" ++ "_v" ++ envEx.now ≠ "src") ∧
    (({ name := "src" ++ "_v" ++ envEx.now, workspace := "ws", settings := buildSettings []
      , attrs := [], records := srcDS.records } : DS Nat).name =
        "src" ++ "_v" ++ envEx.now ∧
     ({ name := "src" ++ "_v" ++ envEx.now, workspace := "ws", settings := buildSettings []
      , attrs := [], records := srcDS.records } : DS Nat).name ≠ "src") ∧
    dsMutTarget (Event.wsLookup "ws") ≠ some "src" := by
  have hmig := migrate_happy envEx "ws" "src" "ws" ("src" ++ "_v" ++ envEx.now) [] none 100
    ⟨"ws"⟩ srcDS
    { name := "src" ++ "_v" ++ envEx.now, workspace := "ws", settings := buildSettings []
    , attrs := [], records := [] }
    [.wsLookup "ws", .dsCreate "ws" ("src" ++ "_v" ++ envEx.now)] rfl rfl rfl
  have herr := (loop_no_transform envEx "ws" ("src" ++ "_v" ++ envEx.now) srcDS.records 100
    (fun _ => rfl) (by omega) 0 []).1
  have happ := (loop_no_transform envEx "ws" ("src" ++ "_v" ++ envEx.now) srcDS.records 100
    (fun _ => rfl) (by omega) 0 []).2
  rw [List.drop_zero, List.nil_append] at happ
  have hupd : (update_dataset_settings envEx "ws" "src" [] true).2 =
      .ok (some { name := "src" ++ "_v" ++ envEx.now, workspace := "ws"
                , settings := buildSettings [], attrs := [], records := srcDS.records }) := by
    rw [update_true_eq, hmig]
    simp only [herr, happ]
  have hmem : Event.wsLookup "ws" ∈ (update_dataset_settings envEx "ws" "src" [] true).1 := by
    rw [update_true_eq, hmig]
    simp only [herr]
    simp
  exact ⟨(claim_C5_new_version_frame envEx "ws" "src" []).1,
    (claim_C5_new_version_frame envEx "ws" "src" []).2.1 _ hupd,
    (claim_C5_new_version_frame envEx "ws" "src" []).2.2 (Event.wsLookup "ws") hmem⟩

end ArgillaManager

namespace ArgillaManager

theorem delete_eqNone {α : Type} (env : Env α) (workspace dataset : String)
    (e1 : List Event) (ws : Workspace)
    (hg : get_workspace env workspace false = (e1, .ok ws))
    (hl : env.dsLookup dataset ws.name = .ok none) :
    delete_dataset env workspace dataset =
      (e1 ++ [.dsLookup ws.name dataset],
       .error (.datasetError ("Dataset deletion failed: " ++ noneDeleteMsg))) := by
  unfold delete_dataset
  rw [hg]
  simp only [hl]

/-- Claim C6: deleting a dataset that does not exist in an existing workspace
— whether the SDK lookup returns `None` (so `delete()` hits an
`AttributeError`) or raises — always surfaces as a `DatasetError`, never as a
raw SDK exception. -/
theorem claim_C6_delete_missing_dsErr {α : Type} (env : Env α)
    (workspace dataset : String) (w : Workspace)
    (hw : env.wsLookup workspace = .ok (some w))
    (hmiss : env.dsLookup dataset w.name = .ok none ∨
      ∃ m, env.dsLookup dataset w.name = .error (.notFoundApiError m) ∨
           env.dsLookup dataset w.name = .error (.otherError m)) :
    ∃ m, (delete_dataset env workspace dataset).2 = .error (.datasetError m) := by
  have hg := get_workspace_found env workspace false w hw
  rcases hmiss with hl | ⟨m, hl | hl⟩
  · exact ⟨"Dataset deletion failed: " ++ noneDeleteMsg,
      by rw [delete_eqNone env workspace dataset _ w hg hl]⟩
  · refine ⟨"Dataset deletion failed: " ++ m, ?_⟩
    unfold delete_dataset
    rw [hg]
    simp only [hl]
    rfl
  · refine ⟨"Dataset deletion failed: " ++ m, ?_⟩
    unfold delete_dataset
    rw [hg]
    simp only [hl]
    rfl

/-- Witness for C6: deleting the absent dataset `nope` from the existing
workspace `ws` of `envEx` yields a `DatasetError`. -/
theorem claim_C6_delete_missing_dsErr_witness :
    ∃ m, (delete_dataset envEx "ws" "nope").2 = .error (.datasetError m) :=
  claim_C6_delete_missing_dsErr envEx "ws" "nope" ⟨"ws"⟩ rfl (Or.inl rfl)

end ArgillaManager

namespace ArgillaManager

theorem findVal_assocSet_isSome (a : List (String × Val)) (k k2 : String) (v : Val) :
    (findVal (assocSet a k v) k2).isSome = (findVal a k2).isSome := by
  induction a with
  | nil => rfl
  | cons p rest ih =>
    cases p with
    | mk k0 v0 =>
      by_cases h0 : k0 = k
      · subst h0
        by_cases h2 : k0 = k2 <;> simp [assocSet, findVal, h2]
      · by_cases h2 : k0 = k2
        · subst h2
          simp [assocSet, findVal, h0]
        · simp [assocSet, findVal, h0, h2, ih]

theorem findVal_assocSet_self (a : List (String × Val)) (k : String) (v : Val)
    (h : (findVal a k).isSome) : findVal (assocSet a k v) k = some v := by
  induction a with
  | nil => simp [findVal] at h
  | cons p rest ih =>
    cases p with
    | mk k0 v0 =>
      by_cases h0 : k0 = k
      · subst h0
        simp [assocSet, findVal]
      · simp only [findVal, if_neg h0] at h
        simp [assocSet, findVal, h0, ih h]

theorem findVal_assocSet_ne (a : List (String × Val)) (k k2 : String) (v : Val)
    (h : k ≠ k2) : findVal (assocSet a k v) k2 = findVal a k2 := by
  induction a with
  | nil => rfl
  | cons p rest ih =>
    cases p with
    | mk k0 v0 =>
      by_cases h0 : k0 = k
      · subst h0
        have h02 : ¬ k0 = k2 := h
        simp [assocSet, findVal, h02]
      · by_cases h2 : k0 = k2
        · subst h2
          simp [assocSet, findVal, h0]
        · simp [assocSet, findVal, h0, h2, ih]

theorem applySettings_cons (a : List (String × Val)) (kv : String × Val)
    (rest : SettingsDict) :
    applySettings a (kv :: rest) =
      applySettings (if (findVal a kv.1).isSome then assocSet a kv.1 kv.2 else a) rest := rfl

theorem applySettings_isSome (ns : SettingsDict) :
    ∀ (a : List (String × Val)) (k : String),
      (findVal (applySettings a ns) k).isSome = (findVal a k).isSome := by
  induction ns with
  | nil => intro a k; rfl
  | cons kv rest ih =>
    intro a k
    rw [applySettings_cons, ih]
    by_cases h : (findVal a kv.1).isSome
    · rw [if_pos h, findVal_assocSet_isSome]
    · rw [if_neg h]

theorem applySettings_absent (ns : SettingsDict) :
    ∀ (a : List (String × Val)) (k : String), k ∉ ns.map Prod.fst →
      findVal (applySettings a ns) k = findVal a k := by
  induction ns with
  | nil => intro a k _; rfl
  | cons kv rest ih =>
    intro a k hk
    simp only [List.map_cons, List.mem_cons] at hk
    push_neg at hk
    rw [applySettings_cons, ih _ k hk.2]
    by_cases h : (findVal a kv.1).isSome
    · rw [if_pos h, findVal_assocSet_ne]
      intro hx
      exact hk.1 hx.symm
    · rw [if_neg h]

theorem applySettings_assign (ns : SettingsDict) :
    ∀ (a : List (String × Val)) (k : String) (v : Val),
      (ns.map Prod.fst).Nodup → (k, v) ∈ ns → (findVal a k).isSome →
      findVal (applySettings a ns) k = some v := by
  induction ns with
  | nil => intro a k v _ hmem _; simp at hmem
  | cons kv rest ih =>
    intro a k v hnd hmem hsome
    simp only [List.map_cons, List.nodup_cons] at hnd
    rcases List.mem_cons.mp hmem with heq | hmem2
    · subst heq
      rw [applySettings_cons, if_pos hsome]
      rw [applySettings_absent rest _ k hnd.1]
      exact findVal_assocSet_self a k v hsome
    · rw [applySettings_cons]
      by_cases h : (findVal a kv.1).isSome
      · rw [if_pos h]
        refine ih _ k v hnd.2 hmem2 ?_
        rw [findVal_assocSet_isSome]
        exact hsome
      · rw [if_neg h]
        exact ih _ k v hnd.2 hmem2 hsome

end ArgillaManager

namespace ArgillaManager

theorem update_false_eqWsErr {α : Type} (env : Env α) (workspace dataset : String)
    (ns : SettingsDict) (e1 : List Event) (e : PyErr)
    (hg : get_workspace env workspace false = (e1, .error e)) :
    update_dataset_settings env workspace dataset ns false =
      (e1, .error (wrapUnless "Settings update failed: " e)) := by
  unfold update_dataset_settings
  simp only [Bool.false_eq_true, if_false]
  rw [hg]

theorem update_false_eq {α : Type} (env : Env α) (workspace dataset : String)
    (ns : SettingsDict) (e1 : List Event) (ws : Workspace)
    (hg : get_workspace env workspace false = (e1, .ok ws)) :
    update_dataset_settings env workspace dataset ns false =
      (match env.dsLookup dataset ws.name with
       | .error e =>
         (e1 ++ [.dsLookup ws.name dataset],
          .error (wrapUnless "Settings update failed: " e))
       | .ok none => (e1 ++ [.dsLookup ws.name dataset], .ok none)
       | .ok (some obj) =>
         (e1 ++ [.dsLookup ws.name dataset],
          .ok (some { obj with attrs := applySettings obj.attrs ns }))) := by
  unfold update_dataset_settings
  simp only [Bool.false_eq_true, if_false]
  rw [hg]

/-- Claim C7: `update_dataset_settings` without versioning assigns, in
insertion order, each settings key that exists as an attribute of the live
dataset object, silently skips every key that does not (absent keys stay
absent, no error is raised), and returns the dataset object. -/
theorem claim_C7_inplace_update {α : Type} (env : Env α) (workspace dataset : String)
    (ns : SettingsDict) (w : Workspace) (obj : DS α)
    (hw : env.wsLookup workspace = .ok (some w))
    (hd : env.dsLookup dataset w.name = .ok (some obj))
    (hnd : (ns.map Prod.fst).Nodup) :
    (update_dataset_settings env workspace dataset ns false).2 =
      .ok (some { obj with attrs := applySettings obj.attrs ns }) ∧
    (∀ k v, (k, v) ∈ ns → (findVal obj.attrs k).isSome →
      findVal (applySettings obj.attrs ns) k = some v) ∧
    (∀ k, findVal obj.attrs k = none → findVal (applySettings obj.attrs ns) k = none) := by
  refine ⟨?_, ?_, ?_⟩
  · rw [update_false_eq env workspace dataset ns _ w
      (get_workspace_found env workspace false w hw)]
    simp only [hd]
  · intro k v hmem hsome
    exact applySettings_assign ns obj.attrs k v hnd hmem hsome
  · intro k hk
    have h := applySettings_isSome ns obj.attrs k
    rw [hk] at h
    cases hres : findVal (applySettings obj.attrs ns) k with
    | none => rfl
    | some v =>
      rw [hres] at h
      simp at h

/-- Witness for C7 at `envEx`: updating `src` in place with
`{guidelines: "new", zzz: "x"}` assigns `guidelines` (an attribute of the
live object), leaves the unknown key `zzz` absent, and returns the object
with only its attributes changed. -/
theorem claim_C7_inplace_update_witness :
    (update_dataset_settings envEx "ws" "src" nsEx false).2 =
      .ok (some { srcDS with attrs := applySettings srcDS.attrs nsEx }) ∧
    findVal (applySettings srcDS.attrs nsEx) "guidelines" = some (.str "new") ∧
    findVal (applySettings srcDS.attrs nsEx) "zzz" = none := by
  have h := claim_C7_inplace_update envEx "ws" "src" nsEx ⟨"ws"⟩ srcDS rfl rfl (by decide)
  exact ⟨h.1, h.2.1 "guidelines" (.str "new") (by decide) (by decide), h.2.2 "zzz" (by decide)⟩

end ArgillaManager

namespace ArgillaManager

theorem create_dataset_err {α : Type} (env : Env α) (w d : String) (s : SettingsDict)
    (e : PyErr) (h : (create_dataset env w d s).2 = .error e) :
    ∃ m, e = .datasetError m := by
  cases hg : get_workspace env w true with
  | mk evs r =>
    cases r with
    | error e0 =>
      rw [create_dataset_eqErr env w d s evs e0 hg] at h
      simp at h
      exact h ▸ wrapUnless_dsErr _ e0
    | ok ws =>
      rw [create_dataset_eqOk env w d s evs ws hg] at h
      cases hc : env.dsCreate ws.name d (buildSettings s) with
      | ok u =>
        rw [hc] at h
        simp at h
      | error e0 =>
        rw [hc] at h
        simp at h
        exact h ▸ wrapUnless_dsErr _ e0

theorem migrate_err {α : Type} (env : Env α) (sw sd tw td : String) (ns : SettingsDict)
    (t : Option (α → Except String α)) (bs : Nat) (e : PyErr)
    (h : (migrate_dataset env sw sd tw td ns t bs).2 = .error e) :
    ∃ m, e = .datasetError m := by
  cases hg : get_workspace env sw false with
  | mk e1 r1 =>
    cases r1 with
    | error e0 =>
      rw [migrate_eqWsErr env sw sd tw td ns t bs e1 e0 hg] at h
      simp at h
      exact h ▸ wrapUnless_dsErr _ e0
    | ok sws =>
      cases hl : env.dsLookup sd sws.name with
      | error e0 =>
        rw [migrate_eqLookupErr env sw sd tw td ns t bs e1 sws e0 hg hl] at h
        simp at h
        exact h ▸ wrapUnless_dsErr _ e0
      | ok osrc =>
        cases hc : create_dataset env tw td ns with
        | mk e3 r3 =>
          cases r3 with
          | error e0 =>
            rw [migrate_eqCreateErr env sw sd tw td ns t bs e1 sws osrc e3 e0 hg hl hc] at h
            simp at h
            exact h ▸ wrapUnless_dsErr _ e0
          | ok target =>
            cases osrc with
            | none =>
              rw [migrate_eqSrcNone env sw sd tw td ns t bs e1 sws e3 target hg hl hc] at h
              simp at h
              exact ⟨_, h.symm⟩
            | some src =>
              rw [migrate_eqRun env sw sd tw td ns t bs e1 sws e3 src target hg hl hc] at h
              cases herr : (migrateLoop env target.workspace target.name t src.records bs
                  src.records.length 0 []).err with
              | some e0 =>
                rw [herr] at h
                simp at h
                obtain ⟨m, rfl⟩ := loop_err_dsErr env target.workspace target.name t
                  src.records bs src.records.length 0 [] e0 herr
                exact ⟨m, h.symm⟩
              | none =>
                rw [herr] at h
                simp at h

theorem update_err {α : Type} (env : Env α) (w d : String) (ns : SettingsDict)
    (cv : Bool) (e : PyErr)
    (h : (update_dataset_settings env w d ns cv).2 = .error e) :
    ∃ m, e = .datasetError m := by
  cases cv with
  | true =>
    rw [update_true_eq] at h
    cases hm : migrate_dataset env w d w (d ++ "_v" ++ env.now) ns none 100 with
    | mk evs r =>
      rw [hm] at h
      cases r with
      | error e0 =>
        simp at h
        exact h ▸ wrapUnless_dsErr _ e0
      | ok d2 => simp at h
  | false =>
    cases hg : get_workspace env w false with
    | mk e1 r1 =>
      cases r1 with
      | error e0 =>
        rw [update_false_eqWsErr env w d ns e1 e0 hg] at h
        simp at h
        exact h ▸ wrapUnless_dsErr _ e0
      | ok ws =>
        rw [update_false_eq env w d ns e1 ws hg] at h
        cases hl : env.dsLookup d ws.name with
        | error e0 =>
          rw [hl] at h
          simp at h
          exact h ▸ wrapUnless_dsErr _ e0
        | ok osrc =>
          rw [hl] at h
          cases osrc with
          | none => simp at h
          | some obj => simp at h

theorem clone_err {α : Type} (env : Env α) (w d nn : String) (nw : Option String)
    (e : PyErr) (h : (clone_dataset env w d nn nw).2 = .error e) :
    ∃ m, e = .datasetError m := by
  cases hg : get_workspace env w false with
  | mk e1 r1 =>
    cases r1 with
    | error e0 =>
      have heq : clone_dataset env w d nn nw =
          (e1, .error (wrapUnless "Dataset cloning failed: " e0)) := by
        unfold clone_dataset
        rw [hg]
      rw [heq] at h
      simp at h
      exact h ▸ wrapUnless_dsErr _ e0
    | ok ws =>
      cases hl : env.dsLookup d ws.name with
      | error e0 =>
        have heq : clone_dataset env w d nn nw =
            (e1 ++ [.dsLookup ws.name d],
             .error (wrapUnless "Dataset cloning failed: " e0)) := by
          unfold clone_dataset
          rw [hg]
          simp only [hl]
        rw [heq] at h
        simp at h
        exact h ▸ wrapUnless_dsErr _ e0
      | ok osrc =>
        cases osrc with
        | none =>
          have heq : clone_dataset env w d nn nw =
              (e1 ++ [.dsLookup ws.name d],
               .error (.datasetError ("Dataset cloning failed: " ++ noneSettingsMsg))) := by
            unfold clone_dataset
            rw [hg]
            simp only [hl]
          rw [heq] at h
          simp at h
          exact ⟨_, h.symm⟩
        | some src =>
          cases hm : migrate_dataset env w d (nw.getD w) nn
              (settingsAsDict src.settings) none 100 with
          | mk e3 r3 =>
            cases r3 with
            | error e0 =>
              have heq : clone_dataset env w d nn nw =
                  ((e1 ++ [.dsLookup ws.name d]) ++ e3,
                   .error (wrapUnless "Dataset cloning failed: " e0)) := by
                unfold clone_dataset
                rw [hg]
                simp only [hl, hm]
              rw [heq] at h
              simp at h
              exact h ▸ wrapUnless_dsErr _ e0
            | ok dd =>
              have heq : clone_dataset env w d nn nw =
                  ((e1 ++ [.dsLookup ws.name d]) ++ e3, .ok dd) := by
                unfold clone_dataset
                rw [hg]
                simp only [hl, hm]
              rw [heq] at h
              simp at h

theorem delete_err {α : Type} (env : Env α) (w d : String) (e : PyErr)
    (h : (delete_dataset env w d).2 = .error e) : ∃ m, e = .datasetError m := by
  cases hg : get_workspace env w false with
  | mk e1 r1 =>
    cases r1 with
    | error e0 =>
      have heq : delete_dataset env w d =
          (e1, .error (wrapUnless "Dataset deletion failed: " e0)) := by
        unfold delete_dataset
        rw [hg]
      rw [heq] at h
      simp at h
      exact h ▸ wrapUnless_dsErr _ e0
    | ok ws =>
      cases hl : env.dsLookup d ws.name with
      | error e0 =>
        have heq : delete_dataset env w d =
            (e1 ++ [.dsLookup ws.name d],
             .error (wrapUnless "Dataset deletion failed: " e0)) := by
          unfold delete_dataset
          rw [hg]
          simp only [hl]
        rw [heq] at h
        simp at h
        exact h ▸ wrapUnless_dsErr _ e0
      | ok osrc =>
        cases osrc with
        | none =>
          rw [delete_eqNone env w d e1 ws hg hl] at h
          simp at h
          exact ⟨_, h.symm⟩
        | some ds0 =>
          cases hdel : env.dsDelete ws.name d with
          | ok u =>
            have heq : delete_dataset env w d =
                ((e1 ++ [.dsLookup ws.name d]) ++ [.dsDelete ws.name d], .ok ()) := by
              unfold delete_dataset
              rw [hg]
              simp only [hl, hdel]
            rw [heq] at h
            simp at h
          | error e0 =>
            have heq : delete_dataset env w d =
                ((e1 ++ [.dsLookup ws.name d]) ++ [.dsDelete ws.name d],
                 .error (wrapUnless "Dataset deletion failed: " e0)) := by
              unfold delete_dataset
              rw [hg]
              simp only [hl, hdel]
            rw [heq] at h
            simp at h
            exact h ▸ wrapUnless_dsErr _ e0

end ArgillaManager

namespace ArgillaManager

theorem delete_dsDelete_once {α : Type} (env : Env α) (w d n m2 : String) :
    ((delete_dataset env w d).1).count (Event.dsDelete n m2) ≤ 1 := by
  cases hg : get_workspace env w false with
  | mk e1 r1 =>
    have he1 : e1.count (Event.dsDelete n m2) = 0 := by
      rw [List.count_eq_zero]
      intro hmem
      have hmut := get_workspace_noMut env w false (Event.dsDelete n m2)
      rw [hg] at hmut
      have h2 := hmut hmem
      simp [dsMutTarget] at h2
    cases r1 with
    | error e0 =>
      have heq : delete_dataset env w d =
          (e1, .error (wrapUnless "Dataset deletion failed: " e0)) := by
        unfold delete_dataset
        rw [hg]
      rw [heq]
      simp [he1]
    | ok ws =>
      cases hl : env.dsLookup d ws.name with
      | error e0 =>
        have heq : delete_dataset env w d =
            (e1 ++ [.dsLookup ws.name d],
             .error (wrapUnless "Dataset deletion failed: " e0)) := by
          unfold delete_dataset
          rw [hg]
          simp only [hl]
        rw [heq]
        simp [List.count_append, he1, List.count_cons]
      | ok osrc =>
        cases osrc with
        | none =>
          rw [delete_eqNone env w d e1 ws hg hl]
          simp [List.count_append, he1, List.count_cons]
        | some ds0 =>
          have hsingle : ([Event.dsDelete ws.name d]).count (Event.dsDelete n m2) ≤ 1 := by
            have := List.count_le_length (Event.dsDelete n m2) [Event.dsDelete ws.name d]
            simpa using this
          cases hdel : env.dsDelete ws.name d with
          | ok u =>
            have heq : delete_dataset env w d =
                ((e1 ++ [.dsLookup ws.name d]) ++ [.dsDelete ws.name d], .ok ()) := by
              unfold delete_dataset
              rw [hg]
              simp only [hl, hdel]
            rw [heq]
            show ((e1 ++ [Event.dsLookup ws.name d]) ++ [Event.dsDelete ws.name d]).count
              (Event.dsDelete n m2) ≤ 1
            rw [List.count_append, List.count_append, he1]
            have hl0 : ([Event.dsLookup ws.name d]).count (Event.dsDelete n m2) = 0 := by
              simp
            rw [hl0]
            omega
          | error e0 =>
            have heq : delete_dataset env w d =
                ((e1 ++ [.dsLookup ws.name d]) ++ [.dsDelete ws.name d],
                 .error (wrapUnless "Dataset deletion failed: " e0)) := by
              unfold delete_dataset
              rw [hg]
              simp only [hl, hdel]
            rw [heq]
            show ((e1 ++ [Event.dsLookup ws.name d]) ++ [Event.dsDelete ws.name d]).count
              (Event.dsDelete n m2) ≤ 1
            rw [List.count_append, List.count_append, he1]
            have hl0 : ([Event.dsLookup ws.name d]).count (Event.dsDelete n m2) = 0 := by
              simp
            rw [hl0]
            omega

end ArgillaManager

namespace ArgillaManager

/-- Claim C8: the shared exception-translation pattern of every public
operation: a `DatasetError` passes through `wrapUnless` unchanged while any
other exception is wrapped with the operation's contextual message; every
error surfaced by create, migrate, update-settings, clone or delete is a
`DatasetError`; and the mutating delete call happens at most once per
operation (nothing is retried). -/
theorem claim_C8_uniform_error_wrapping :
    (∀ ctx m, wrapUnless ctx (.datasetError m) = .datasetError m) ∧
    (∀ ctx m, wrapUnless ctx (.notFoundApiError m) = .datasetError (ctx ++ m)) ∧
    (∀ ctx m, wrapUnless ctx (.otherError m) = .datasetError (ctx ++ m)) ∧
    (∀ (α : Type) (env : Env α) (w d : String) (s : SettingsDict) (e : PyErr),
      (create_dataset env w d s).2 = .error e → ∃ m, e = .datasetError m) ∧
    (∀ (α : Type) (env : Env α) (sw sd tw td : String) (ns : SettingsDict)
       (t : Option (α → Except String α)) (bs : Nat) (e : PyErr),
      (migrate_dataset env sw sd tw td ns t bs).2 = .error e → ∃ m, e = .datasetError m) ∧
    (∀ (α : Type) (env : Env α) (w d : String) (ns : SettingsDict) (cv : Bool) (e : PyErr),
      (update_dataset_settings env w d ns cv).2 = .error e → ∃ m, e = .datasetError m) ∧
    (∀ (α : Type) (env : Env α) (w d nn : String) (nw : Option String) (e : PyErr),
      (clone_dataset env w d nn nw).2 = .error e → ∃ m, e = .datasetError m) ∧
    (∀ (α : Type) (env : Env α) (w d : String) (e : PyErr),
      (delete_dataset env w d).2 = .error e → ∃ m, e = .datasetError m) ∧
    (∀ (α : Type) (env : Env α) (w d n m2 : String),
      ((delete_dataset env w d).1).count (Event.dsDelete n m2) ≤ 1) :=
  ⟨fun _ _ => rfl, fun _ _ => rfl, fun _ _ => rfl,
   fun _ env w d s e h => create_dataset_err env w d s e h,
   fun _ env sw sd tw td ns t bs e h => migrate_err env sw sd tw td ns t bs e h,
   fun _ env w d ns cv e h => update_err env w d ns cv e h,
   fun _ env w d nn nw e h => clone_err env w d nn nw e h,
   fun _ env w d e h => delete_err env w d e h,
   fun _ env w d n m2 => delete_dsDelete_once env w d n m2⟩

/-- Witness for C8 at the failing environment `envErr`: creating a dataset
fails with a wrapped `DatasetError` (the underlying create call blew up),
deleting propagates a `DatasetError`, and the delete trace performs at most
one delete call. -/
theorem claim_C8_uniform_error_wrapping_witness :
    wrapUnless "ctx: " (.datasetError "kept") = .datasetError "kept" ∧
    wrapUnless "ctx: " (.otherError "boom") = .datasetError ("ctx: " ++ "boom") ∧
    (∃ m, PyErr.datasetError ("Failed to create dataset \x27d\x27: create blew up") =
      .datasetError m) ∧
    (∃ m, PyErr.datasetError ("Workspace \x27zzz\x27 not found") =
      .datasetError m) ∧
    ((delete_dataset envErr "zzz" "d").1).count (Event.dsDelete "zzz" "d") ≤ 1 :=
  ⟨claim_C8_uniform_error_wrapping.1 "ctx: " "kept",
   claim_C8_uniform_error_wrapping.2.2.1 "ctx: " "boom",
   claim_C8_uniform_error_wrapping.2.2.2.1 Nat envErr "zzz" "d" [] _ rfl,
   claim_C8_uniform_error_wrapping.2.2.2.2.2.2.2.1 Nat envErr "zzz" "d" _ rfl,
   claim_C8_uniform_error_wrapping.2.2.2.2.2.2.2.2 Nat envErr "zzz" "d" "zzz" "d"⟩

end ArgillaManager

namespace ArgillaManager

/-- Claim C1 (refuted by the code; the clone docstring promises "an exact
copy"): `create_dataset` builds the target's settings from a fixed schema —
the field list is always the single text field `text` and the only question
is `label` — so `clone_dataset` does not preserve the source's settings
whenever they differ from that fixed shape. Concretely, cloning `srcDS`
(fields `title`, `body`; question `sentiment`) in `envEx` succeeds but
yields a dataset whose settings differ from the source's. -/
theorem claim_C1_clone_settings_bug :
    (∀ s : SettingsDict, (buildSettings s).fields = ["text"]) ∧
    (∃ d : DS Nat, (clone_dataset envEx "ws" "src" "copy" none).2 = .ok d ∧
      d.settings ≠ srcDS.settings ∧
      d.settings.fields = ["text"] ∧ srcDS.settings.fields = ["title", "body"]) := by
  refine ⟨fun s => rfl, ?_⟩
  have hmig := migrate_happy envEx "ws" "src" "ws" "copy" (settingsAsDict srcDS.settings)
    none 100 ⟨"ws"⟩ srcDS
    { name := "copy", workspace := "ws"
    , settings := buildSettings (settingsAsDict srcDS.settings), attrs := [], records := [] }
    [.wsLookup "ws", .dsCreate "ws" "copy"] rfl rfl rfl
  have herr := (loop_no_transform envEx "ws" "copy" srcDS.records 100 (fun _ => rfl)
    (by omega) 0 []).1
  have happ := (loop_no_transform envEx "ws" "copy" srcDS.records 100 (fun _ => rfl)
    (by omega) 0 []).2
  rw [List.drop_zero, List.nil_append] at happ
  have hsnd : (migrate_dataset envEx "ws" "src" "ws" "copy"
      (settingsAsDict srcDS.settings) none 100).2 =
      .ok { name := "copy", workspace := "ws"
          , settings := buildSettings (settingsAsDict srcDS.settings), attrs := []
          , records := srcDS.records } := by
    rw [hmig]
    simp only [herr, happ]
  refine ⟨{ name := "copy", workspace := "ws"
          , settings := buildSettings (settingsAsDict srcDS.settings), attrs := []
          , records := srcDS.records }, ?_, by decide, rfl, rfl⟩
  cases hm : migrate_dataset envEx "ws" "src" "ws" "copy"
      (settingsAsDict srcDS.settings) none 100 with
  | mk evs r =>
    rw [hm] at hsnd
    simp only at hsnd
    subst hsnd
    have hl : envEx.dsLookup "src" (Workspace.mk "ws").name = .ok (some srcDS) := rfl
    have heq : clone_dataset envEx "ws" "src" "copy" none =
        (([Event.wsLookup "ws"] ++ [Event.dsLookup "ws" "src"]) ++ evs,
         .ok { name := "copy", workspace := "ws"
             , settings := buildSettings (settingsAsDict srcDS.settings), attrs := []
             , records := srcDS.records }) := by
      unfold clone_dataset
      rw [get_workspace_found envEx "ws" false ⟨"ws"⟩ rfl]
      simp only [hl, Option.getD_none, hm]
    rw [heq]

end ArgillaManager
